import Mathlib

/-!
Verification development for the PDF question-answering backend
(`backend/pdf_qa_server.py`).

The Python module is shallowly embedded here:

* document texts, passages, questions and file names are `List Char`
  (Python `str.strip`, slicing and length are list operations);
* the external collaborators (filesystem, PDF reader, embedding model)
  are fields of an `Env` record of pure functions — the numeric output
  of the embedding model and the cosine kernel are abstracted as an
  oracle returning rationals, since the selection logic of the server
  never depends on how the floats were produced;
* the module-level mutable globals (`_pdf_cache`, `_pdf_cache_loaded`,
  `_pdf_folder_path`, `_passage_embeddings`, `_passage_metadata`) form
  a `ServerState` record, and each Flask handler is a pure function
  `Env → request → ServerState → response × ServerState`.
-/

/-- Texts, passages, paths and file names are modelled as lists of
characters (Python `str`). -/
abbrev Str := List Char

/-- Python `\s` as used by `str.strip()` and the `re.split` pattern;
modelled by `Char.isWhitespace` (space, tab, CR, LF). -/
def isWs (c : Char) : Bool := c.isWhitespace

/-- A character that ends a sentence in the splitting regex
`(?<=[.!?])\s+`. -/
def sentenceEnd (c : Char) : Bool := c = '.' || c = '!' || c = '?'

/-- Python `str.strip()`: drop whitespace from both ends. -/
def strip (s : Str) : Str :=
  ((s.dropWhile isWs).reverse.dropWhile isWs).reverse

/-- Scanner for `re.split(r'(?<=[.!?])\s+', text)`: a split happens at
every maximal whitespace run that directly follows `.`, `!` or `?`,
and the whitespace run is consumed. The state is `some (acc, prevB)`
while inside a chunk — `acc` is the chunk so far, reversed, and
`prevB` records whether the previous character was `.`, `!` or `?` —
and `none` while consuming the whitespace run after a split point (a
trailing run yields the final empty chunk, exactly as `re.split`
does). -/
def splitSentencesAux : Str → Option (Str × Bool) → List Str
  | [], none => [[]]
  | [], some st => [st.1.reverse]
  | c :: rest, none =>
    if isWs c = true then splitSentencesAux rest none
    else splitSentencesAux rest (some ([c], sentenceEnd c))
  | c :: rest, some st =>
    if st.2 = true ∧ isWs c = true then
      st.1.reverse :: splitSentencesAux rest none
    else splitSentencesAux rest (some (c :: st.1, sentenceEnd c))

/-- `re.split(r'(?<=[.!?])\s+', text)` from `split_into_passages` (no
character precedes position 0, so the scan starts inside an empty
chunk with no boundary mark before it). -/
def splitSentences (text : Str) : List Str :=
  splitSentencesAux text (some ([], false))

/-- The sentence-accumulation loop of `split_into_passages`: greedily
accumulate stripped sentences into `cur`, flushing when the next
sentence would push `len(current_passage) + len(sentence)` over
`max_length` and the accumulator is non-empty. -/
def splitLoop (maxLength : Nat) : List Str → Str → List Str
  | [], cur => if strip cur = [] then [] else [strip cur]
  | s0 :: rest, cur =>
    let s := strip s0
    if s = [] then splitLoop maxLength rest cur
    else if maxLength < cur.length + s.length ∧ cur ≠ [] then
      strip cur :: splitLoop maxLength rest s
    else
      splitLoop maxLength rest (if cur = [] then s else cur ++ ' ' :: s)

/-- `split_into_passages(text, max_length)` (the server always calls it
with the default `max_length=500`). -/
def split_into_passages (text : Str) (maxLength : Nat) : List Str :=
  splitLoop maxLength (splitSentences text) []

/-- Outcome of reading one PDF through PyPDF2, as seen by
`extract_text_from_pdf`: either every page is read, or an exception is
raised after some prefix of the pages was already read (the exception
is caught and logged; `PdfRead.failAfter []` covers a failure at
`open`/`PdfReader` time). -/
inductive PdfRead where
  | ok (pages : List Str)
  | failAfter (pages : List Str)
deriving DecidableEq

/-- The page loop of `extract_text_from_pdf`: append `page_text + "\n"`
for every page whose extracted text is non-empty. -/
def pagesText (pages : List Str) : Str :=
  pages.foldl (fun acc pg => if pg = [] then acc else acc ++ pg ++ ['\n']) []

/-- External collaborators of the server, as pure functions: capability
flags from the optional imports, the filesystem, the PDF reader, and
the sentence-transformer model. `encode` and `cosSim` abstract the
floating-point embedding/normalized-dot-product pipeline as an oracle
returning rationals; none of the verified logic depends on the values
they produce. -/
structure Env where
  pdfSupport : Bool
  semanticAvail : Bool
  encode : Str → List ℚ
  cosSim : List ℚ → List ℚ → ℚ
  pathExists : Str → Bool
  isdir : Str → Bool
  listdir : Str → List Str
  readPdf : Str → PdfRead

/-- The module-level mutable globals of `pdf_qa_server.py`. -/
structure ServerState where
  pdf_cache : List (Str × Str)
  pdf_cache_loaded : Bool
  pdf_folder_path : Option Str
  passage_embeddings : Option (List (List ℚ))
  passage_metadata : List (Str × Str)
deriving DecidableEq

/-- `PDF_DIRECTORY = os.path.join(os.path.dirname(__file__), 'pdfs')`;
the concrete absolute prefix is irrelevant, only its identity is used. -/
def PDF_DIRECTORY : Str := "pdfs".toList

/-- `os.path.join(dir, name)` for the forms the server uses. -/
def pathJoin (dir name : Str) : Str := dir ++ '/' :: name

/-- `filename.lower().endswith('.pdf')`. -/
def isPdfName (f : Str) : Bool :=
  List.isSuffixOf ".pdf".toList (f.map Char.toLower)

/-- `extract_text_from_pdf(pdf_path)`: returns `""` without PyPDF2;
otherwise accumulates the page texts, and on an exception (caught and
logged) returns whatever was accumulated before the failure. -/
def extract_text_from_pdf (env : Env) (pdf_path : Str) : Str :=
  if env.pdfSupport = false then []
  else
    match env.readPdf pdf_path with
    | PdfRead.ok pages => pagesText pages
    | PdfRead.failAfter pages => pagesText pages

/-- `build_passage_index(pdf_texts)`: the new values of
`(_passage_embeddings, _passage_metadata)`. With no model, or no
passage longer than 20 characters, the index is `(None, [])`;
otherwise the metadata lists every passage of length > 20 of every
non-empty text, in order, and the embeddings are the batch encoding of
exactly those passages. -/
def build_passage_index (env : Env) (pdf_texts : List (Str × Str)) :
    Option (List (List ℚ)) × List (Str × Str) :=
  if env.semanticAvail = false then (none, [])
  else
    let md := pdf_texts.flatMap fun ft =>
      if ft.2 = [] then []
      else ((split_into_passages ft.2 500).filter fun p => 20 < p.length).map
        fun p => (ft.1, p)
    if md = [] then (none, [])
    else (some (md.map fun m => env.encode m.2), md)

/-- The rebuild path of `load_all_pdfs` (everything after the cache-hit
check), for a target directory: list the `.pdf` files, extract each,
install the new cache and index. When the directory does not exist the
code creates it for the default folder (a filesystem effect with no
further reads, not modelled) and installs an empty snapshot. -/
def rebuild (env : Env) (target : Str) : List (Str × Str) × ServerState :=
  if env.pathExists target = false then
    let bi := build_passage_index env []
    ([], ⟨[], true, some target, bi.1, bi.2⟩)
  else
    let files := (env.listdir target).filter isPdfName
    let all_text := files.map fun f => (f, extract_text_from_pdf env (pathJoin target f))
    let bi := build_passage_index env all_text
    (all_text, ⟨all_text, true, some target, bi.1, bi.2⟩)

/-- `load_all_pdfs(force_reload, folder_path)`: returns the dict of
texts and the new global state. Python truthiness of `folder_path`
(None or `""` are falsy) governs both the target directory and the
folder-changed check. -/
def load_all_pdfs (env : Env) (force_reload : Bool) (folder_path : Option Str)
    (st : ServerState) : List (Str × Str) × ServerState :=
  let target := match folder_path with
    | some f => if f = [] then PDF_DIRECTORY else f
    | none => PDF_DIRECTORY
  let force := match folder_path with
    | some f => if f ≠ [] ∧ st.pdf_folder_path ≠ some f then true else force_reload
    | none => force_reload
  if st.pdf_cache_loaded = true ∧ force = false then (st.pdf_cache, st)
  else rebuild env target

/-- The directory a `load_all_pdfs` request targets:
`folder_path if folder_path else PDF_DIRECTORY` (Python truthiness, so
`None` and the empty string both select the default). -/
def requestTarget : Option Str → Str
  | some f => if f = [] then PDF_DIRECTORY else f
  | none => PDF_DIRECTORY

/-- One entry of the result list built by `semantic_search`: the
metadata pair plus the raw cosine similarity the selection used (the
dict's `confidence` field is `round(similarity * 100, 1)`, see
`roundConf`). -/
structure SearchResult where
  filename : Str
  content : Str
  similarity : ℚ
deriving DecidableEq

/-- `similarities[i]`, with numpy's in-bounds access modelled totally
(all accesses the server performs are in bounds). -/
def simAt (sims : List ℚ) (i : Nat) : ℚ := sims.getD i 0

/-- `np.argsort(similarities)`: the indices `0..n-1` sorted by
ascending similarity. numpy's default sort is not stable on ties;
insertion sort is one deterministic realization, which is all the spec
asks of tie order. -/
def argsortAsc (sims : List ℚ) : List Nat :=
  (List.range sims.length).insertionSort fun i j => simAt sims i ≤ simAt sims j

/-- Python `l[-k:]` (for `k = 0` the slice is the whole list). -/
def lastSlice (l : List Nat) (k : Nat) : List Nat :=
  if k = 0 then l else l.drop (l.length - k)

/-- The selection tail of `semantic_search`:
`top_indices = np.argsort(similarities)[-top_k:][::-1]` followed by the
loop keeping only entries with `similarity > 0.2`. -/
def select_top (sims : List ℚ) (md : List (Str × Str)) (top_k : Nat) :
    List SearchResult :=
  ((lastSlice (argsortAsc sims) top_k).reverse).filterMap fun i =>
    if mkRat 1 5 < simAt sims i then
      some ⟨(md.getD i ([], [])).1, (md.getD i ([], [])).2, simAt sims i⟩
    else none

/-- `semantic_search(question, top_k)`: empty when the model is
unavailable, the embeddings are `None`, or the metadata is empty;
otherwise rank the per-passage cosine similarities of the encoded
question. -/
def semantic_search (env : Env) (st : ServerState) (question : Str)
    (top_k : Nat) : List SearchResult :=
  if env.semanticAvail = false then []
  else
    match st.passage_embeddings with
    | none => []
    | some vs =>
      if st.passage_metadata.length = 0 then []
      else
        select_top (vs.map fun v => env.cosSim (env.encode question) v)
          st.passage_metadata top_k

/-- `round(similarity * 100, 1)` — the percentage surfaced as
`confidence`. Python's float round-half-to-even is abstracted as exact
rational rounding half-up to one decimal. -/
def roundConf (s : ℚ) : ℚ := ((Int.floor (s * 1000 + 1/2) : ℤ) : ℚ) / 10

/-- `'\n\n'.join`-style separator join. -/
def joinSep (sep : Str) : List Str → Str
  | [] => []
  | [x] => x
  | x :: xs => x ++ sep ++ joinSep sep xs

/-- The answer text assembled by `ask_question`:
`"From <filename> [<confidence>% confidence]:\n<content>"` per result,
joined by blank lines (the decimal rendering of the confidence uses
Lean's rational printer in place of Python's float formatting). -/
def renderAnswer (results : List SearchResult) : Str :=
  joinSep "\n\n".toList (results.map fun r =>
    "From ".toList ++ r.filename ++ " [".toList
      ++ (toString (roundConf r.similarity)).toList
      ++ "% confidence]:\n".toList ++ r.content)

/-- The JSON body of an `/ask` response together with the HTTP status
(200 unless the handler attaches an explicit 400/500). -/
structure AskResponse where
  success : Bool
  answer : Str
  sources : List SearchResult
  top_confidence : ℚ
  status : Nat
deriving DecidableEq

def msgNoQuestion : Str := "Please provide a question.".toList

def msgEmptyQuestion : Str := "Question cannot be empty.".toList

def msgNoCorpus : Str :=
  "No PDF files are currently loaded. Please load PDFs from a folder first.".toList

def msgNoMatch : Str :=
  "No matching content found for your question. Try rephrasing or asking a different question.".toList

/-- `POST /ask` (`ask_question`). `body` is `data['question']` when the
request JSON carries one (`None` or a missing key are both `none`).
The outer `except` branch (500) is unreachable in the model, which has
no failing operations. -/
def ask_question (env : Env) (body : Option Str) (st : ServerState) :
    AskResponse × ServerState :=
  match body with
  | none => (⟨false, msgNoQuestion, [], 0, 400⟩, st)
  | some q0 =>
    let question := strip q0
    if question = [] then (⟨false, msgEmptyQuestion, [], 0, 400⟩, st)
    else
      let r := load_all_pdfs env false none st
      if r.1 = [] then (⟨false, msgNoCorpus, [], 0, 200⟩, r.2)
      else
        let results := semantic_search env r.2 question 3
        if results = [] then (⟨true, msgNoMatch, [], 0, 200⟩, r.2)
        else
          (⟨true, renderAnswer results, results,
            roundConf ((results.headD ⟨[], [], 0⟩).similarity), 200⟩, r.2)

/-- The JSON body of a `/reload` or `/load_pdfs` response plus HTTP
status. -/
structure LoadResponse where
  success : Bool
  message : Str
  pdfs : List Str
  status : Nat
deriving DecidableEq

/-- `GET /pdfs` (`list_pdfs`): reads only the default directory; the
handler takes the state to record that it ignores it. -/
def list_pdfs (env : Env) (st : ServerState) : List Str :=
  if env.pathExists PDF_DIRECTORY = false then []
  else (env.listdir PDF_DIRECTORY).filter isPdfName

/-- `POST /reload` (`reload_pdfs`): `load_all_pdfs(force_reload=True)`. -/
def reload_pdfs (env : Env) (st : ServerState) : LoadResponse × ServerState :=
  let r := load_all_pdfs env true none st
  (⟨true,
    "Reloaded ".toList ++ (toString r.1.length).toList ++ " PDF file(s).".toList,
    r.1.map Prod.fst, 200⟩, r.2)

/-- `POST /load_pdfs` (`load_pdfs_from_folder`). `body` is
`data['folder_path']` when present. -/
def load_pdfs_from_folder (env : Env) (body : Option Str) (st : ServerState) :
    LoadResponse × ServerState :=
  match body with
  | none => (⟨false, "Please provide a folder_path.".toList, [], 400⟩, st)
  | some fp0 =>
    let fp := strip fp0
    if fp = [] then (⟨false, "Folder path cannot be empty.".toList, [], 400⟩, st)
    else if env.pathExists fp = false then
      (⟨false, "Folder does not exist: ".toList ++ fp, [], 400⟩, st)
    else if env.isdir fp = false then
      (⟨false, "Path is not a directory: ".toList ++ fp, [], 400⟩, st)
    else
      let r := load_all_pdfs env true (some fp) st
      if r.1 = [] then
        (⟨false, "No PDF files found in: ".toList ++ fp, [], 200⟩, r.2)
      else
        (⟨true,
          "Loaded ".toList ++ (toString r.1.length).toList
            ++ " PDF file(s) from: ".toList ++ fp,
          r.1.map Prod.fst, 200⟩, r.2)

/-- The index invariant of the spec, relative to the embedding oracle:
`None` embeddings come with empty metadata, `some` embeddings are the
batch encoding of the metadata passages in order (hence equal counts),
and every indexed passage is longer than 20 characters. -/
def IndexInvariant (env : Env) (st : ServerState) : Prop :=
  (st.passage_embeddings = none → st.passage_metadata = []) ∧
  (∀ vs, st.passage_embeddings = some vs →
    vs = st.passage_metadata.map fun m => env.encode m.2) ∧
  ∀ m ∈ st.passage_metadata, 20 < m.2.length

/-- A `/load_pdfs` request that the validation chain rejects: missing
`folder_path`, empty after strip, nonexistent, or not a directory. -/
def invalidFolderReq (env : Env) (body : Option Str) : Prop :=
  match body with
  | none => True
  | some fp0 =>
    strip fp0 = [] ∨ env.pathExists (strip fp0) = false
      ∨ env.isdir (strip fp0) = false

/-- Fixture for C1: provider unavailable, default folder present on
disk, one document already cached. -/
def envC1 : Env :=
  ⟨true, false, fun _ => [1], fun _ _ => 1, fun _ => true, fun _ => true,
    fun _ => ["doc.pdf".toList],
    fun _ => PdfRead.ok ["Refunds are processed within 30 days.".toList]⟩

/-- Fixture for C1: loaded cache with one non-empty document and no
semantic index. -/
def stC1 : ServerState :=
  ⟨[("doc.pdf".toList, "Refunds are processed within 30 days.\n".toList)],
    true, some PDF_DIRECTORY, none, []⟩

/-- Fixture for C2: nothing on disk, nothing cached. -/
def envC2 : Env :=
  ⟨true, true, fun _ => [1], fun _ _ => 1, fun _ => false, fun _ => false,
    fun _ => [], fun _ => PdfRead.ok []⟩

/-- Fixture for C2: unloaded state. -/
def stC2 : ServerState := ⟨[], false, none, none, []⟩

/-- Fixture for C4: every passage scores cosine similarity 1/2. -/
def envC4 : Env :=
  ⟨true, true, fun _ => [1], fun _ _ => mkRat 1 2, fun _ => true, fun _ => true,
    fun _ => [], fun _ => PdfRead.ok []⟩

/-- Fixture for C4: a built index with two vectors and two metadata
entries. -/
def stC4 : ServerState :=
  ⟨[("a.pdf".toList, "t".toList)], true, some PDF_DIRECTORY,
    some [[1], [1]],
    [("a.pdf".toList, "first indexed passage".toList),
      ("b.pdf".toList, "second indexed passage".toList)]⟩

/-- Fixture for C5: a folder with one readable PDF whose single
passage is long enough to be indexed. -/
def envC5 : Env :=
  ⟨true, true, fun _ => [1], fun _ _ => 1, fun _ => true, fun _ => true,
    fun _ => ["a.pdf".toList],
    fun _ => PdfRead.ok ["This is a sufficiently long passage sentence.".toList]⟩

/-- Fixture for C5: fresh state before the first load. -/
def stC5 : ServerState := ⟨[], false, none, none, []⟩

/-- Fixture for C6: an existing but empty default directory. -/
def envC6 : Env :=
  ⟨true, false, fun _ => [], fun _ _ => 0, fun _ => true, fun _ => true,
    fun _ => [], fun _ => PdfRead.ok []⟩

/-- Fixture for C6: cache loaded from a custom folder that is not the
default directory. -/
def stC6 : ServerState :=
  ⟨[("x.pdf".toList, "cached document text".toList)], true,
    some "/custom".toList, none, []⟩

/-- Fixture for C7: a filesystem on which every path is missing. -/
def envC7 : Env :=
  ⟨true, true, fun _ => [], fun _ _ => 0, fun _ => false, fun _ => false,
    fun _ => [], fun _ => PdfRead.ok []⟩

/-- Fixture for C7: a loaded cache that must stay untouched. -/
def stC7 : ServerState :=
  ⟨[("y.pdf".toList, "kept text".toList)], true, some PDF_DIRECTORY, none, []⟩

/-- Fixture for C8: reading the only PDF raises after its first page
was extracted. -/
def envC8 : Env :=
  ⟨true, false, fun _ => [], fun _ _ => 0, fun _ => true, fun _ => true,
    fun _ => ["bad.pdf".toList],
    fun _ => PdfRead.failAfter ["Page one content".toList]⟩

section StripLemmas

variable {α : Type} (p : α → Bool)

lemma dropWhile_idem (l : List α) :
    (l.dropWhile p).dropWhile p = l.dropWhile p := by
  induction l with
  | nil => rfl
  | cons c t ih =>
    by_cases h : p c = true
    · simp [List.dropWhile_cons, h, ih]
    · simp [List.dropWhile_cons, h]

lemma dropWhile_head_false (l : List α) (c : α) (t : List α)
    (h : l.dropWhile p = c :: t) : p c = false := by
  induction l with
  | nil => simp [List.dropWhile] at h
  | cons a r ih =>
    cases hpa : p a with
    | true =>
      rw [List.dropWhile_cons, if_pos hpa] at h
      exact ih h
    | false =>
      rw [List.dropWhile_cons, if_neg (by simp [hpa])] at h
      obtain ⟨rfl, rfl⟩ := List.cons.injEq .. ▸ h
      exact hpa

lemma dropWhile_eq_self_of_length (l : List α)
    (h : (l.dropWhile p).length = l.length) : l.dropWhile p = l := by
  have h2 := List.takeWhile_append_dropWhile p l
  have h3 : (l.takeWhile p).length + (l.dropWhile p).length = l.length := by
    rw [← List.length_append, h2]
  have h4 : l.takeWhile p = [] :=
    List.eq_nil_of_length_eq_zero (by omega)
  conv_rhs => rw [← h2, h4]
  rw [List.nil_append]

end StripLemmas

lemma strip_parts (l : Str) (h : strip l = l) :
    l.dropWhile isWs = l ∧ l.reverse.dropWhile isWs = l.reverse := by
  have hm : ((l.dropWhile isWs).reverse.dropWhile isWs).length ≤ (l.dropWhile isWs).length := by
    have h1 : ((l.dropWhile isWs).reverse.dropWhile isWs).length ≤ (l.dropWhile isWs).reverse.length :=
      (List.dropWhile_sublist _).length_le
    simpa using h1
  have hd : (l.dropWhile isWs).length ≤ l.length := (List.dropWhile_sublist _).length_le
  have hs : (strip l).length = ((l.dropWhile isWs).reverse.dropWhile isWs).length := by
    simp [strip]
  have hlen : (l.dropWhile isWs).length = l.length := by
    have e : (strip l).length = l.length := by rw [h]
    omega
  have hdw : l.dropWhile isWs = l := dropWhile_eq_self_of_length _ _ hlen
  refine ⟨hdw, ?_⟩
  have h2 : (l.reverse.dropWhile isWs).reverse = l := by
    have h3 : strip l = ((l.dropWhile isWs).reverse.dropWhile isWs).reverse := rfl
    rw [hdw] at h3
    rw [← h3, h]
  have := congrArg List.reverse h2
  simpa using this

lemma strip_idem (l : Str) : strip (strip l) = strip l := by
  have hx : strip l = ((l.dropWhile isWs).reverse.dropWhile isWs).reverse := rfl
  have hA : (strip l).dropWhile isWs = strip l := by
    cases hv : ((l.dropWhile isWs).reverse.dropWhile isWs).reverse with
    | nil => rw [hx, hv]; rfl
    | cons c t =>
      have hu : (l.dropWhile isWs).reverse
          = (l.dropWhile isWs).reverse.takeWhile isWs
            ++ (l.dropWhile isWs).reverse.dropWhile isWs :=
        (List.takeWhile_append_dropWhile _ _).symm
      have hu2 : l.dropWhile isWs
          = ((l.dropWhile isWs).reverse.dropWhile isWs).reverse
            ++ ((l.dropWhile isWs).reverse.takeWhile isWs).reverse := by
        have h5 := congrArg List.reverse hu
        rw [List.reverse_reverse, List.reverse_append] at h5
        exact h5
      rw [hv] at hu2
      rw [List.cons_append] at hu2
      have hcu : isWs c = false := dropWhile_head_false isWs l c _ hu2
      rw [hx, hv]
      simp [List.dropWhile_cons, hcu]
  have hB : (strip l).reverse.dropWhile isWs = (strip l).reverse := by
    rw [hx]
    simp only [List.reverse_reverse]
    exact dropWhile_idem _ _
  have : strip (strip l) = (((strip l).dropWhile isWs).reverse.dropWhile isWs).reverse := rfl
  rw [this, hA, hB, List.reverse_reverse]

lemma strip_append (a b : Str) (c : Char) (ha : strip a = a) (hb : strip b = b)
    (na : a ≠ []) (nb : b ≠ []) : strip (a ++ c :: b) = a ++ c :: b := by
  obtain ⟨a0, a1, rfl⟩ : ∃ x xs, a = x :: xs := by
    cases a with
    | nil => exact absurd rfl na
    | cons x xs => exact ⟨x, xs, rfl⟩
  obtain ⟨b0, b1, hbrev⟩ : ∃ x xs, b.reverse = x :: xs := by
    cases hb2 : b.reverse with
    | nil => exact absurd (by simpa using congrArg List.reverse hb2) nb
    | cons x xs => exact ⟨x, xs, rfl⟩
  have ha0 : isWs a0 = false :=
    dropWhile_head_false isWs (a0 :: a1) a0 a1 (by rw [(strip_parts _ ha).1])
  have hb0 : isWs b0 = false :=
    dropWhile_head_false isWs b.reverse b0 b1 (by rw [(strip_parts _ hb).2, hbrev])
  have e1 : ((a0 :: a1) ++ c :: b).dropWhile isWs = (a0 :: a1) ++ c :: b := by
    simp [List.cons_append, List.dropWhile_cons, ha0]
  have e2 : ((a0 :: a1) ++ c :: b).reverse = b0 :: (b1 ++ c :: (a0 :: a1).reverse) := by
    rw [List.reverse_append, List.reverse_cons, hbrev]
    simp
  have e3 : (b0 :: (b1 ++ c :: (a0 :: a1).reverse)).dropWhile isWs
      = b0 :: (b1 ++ c :: (a0 :: a1).reverse) := by
    simp [List.dropWhile_cons, hb0]
  show (( ((a0 :: a1) ++ c :: b).dropWhile isWs).reverse.dropWhile isWs).reverse = _
  rw [e1, e2, e3, ← e2, List.reverse_reverse]

/-- Invariant of the sentence-accumulation loop: if the accumulator is
strip-fixed and is either empty, short enough, or a single stripped
sentence, then every emitted passage is non-empty and either has at
most `maxLength + 1` characters or is itself a single stripped
sentence. `SS` collects the stripped sentences the flushed accumulator
may consist of. -/
lemma splitLoop_spec (maxLength : Nat) (SS : List Str) :
    ∀ (ss : List Str) (cur : Str),
      (∀ s ∈ ss, strip s ∈ SS) →
      strip cur = cur →
      (cur = [] ∨ cur.length ≤ maxLength + 1 ∨ cur ∈ SS) →
      ∀ p ∈ splitLoop maxLength ss cur,
        p ≠ [] ∧ (p.length ≤ maxLength + 1 ∨ p ∈ SS) := by
  intro ss
  induction ss with
  | nil =>
    intro cur _ hfix hcur p hp
    rw [splitLoop] at hp
    by_cases hc : strip cur = []
    · rw [if_pos hc] at hp
      simp at hp
    · rw [if_neg hc] at hp
      simp only [List.mem_singleton] at hp
      subst hp
      refine ⟨hc, ?_⟩
      rw [hfix]
      rcases hcur with h | h | h
      · exfalso
        rw [h] at hc
        exact hc rfl
      · exact Or.inl h
      · exact Or.inr h
  | cons s0 rest ih =>
    intro cur hss hfix hcur p hp
    rw [splitLoop] at hp
    by_cases hs : strip s0 = []
    · rw [if_pos hs] at hp
      exact ih cur (fun s h => hss s (List.mem_cons_of_mem _ h)) hfix hcur p hp
    · rw [if_neg hs] at hp
      by_cases hflush : maxLength < cur.length + (strip s0).length ∧ cur ≠ []
      · rw [if_pos hflush] at hp
        rcases List.mem_cons.mp hp with hfl | hrest
        · subst hfl
          rw [hfix]
          refine ⟨hflush.2, ?_⟩
          rcases hcur with h | h | h
          · exact absurd h hflush.2
          · exact Or.inl h
          · exact Or.inr h
        · refine ih (strip s0)
            (fun s h => hss s (List.mem_cons_of_mem _ h))
            (strip_idem s0)
            (Or.inr (Or.inr (hss s0 (List.mem_cons_self _ _)))) p hrest
      · rw [if_neg hflush] at hp
        by_cases hce : cur = []
        · rw [if_pos hce] at hp
          refine ih (strip s0)
            (fun s h => hss s (List.mem_cons_of_mem _ h))
            (strip_idem s0)
            (Or.inr (Or.inr (hss s0 (List.mem_cons_self _ _)))) p hp
        · rw [if_neg hce] at hp
          have hlen : cur.length + (strip s0).length ≤ maxLength := by
            rcases not_and_or.mp hflush with h | h
            · omega
            · exact absurd hce h
          refine ih (cur ++ ' ' :: strip s0)
            (fun s h => hss s (List.mem_cons_of_mem _ h))
            (strip_append cur (strip s0) ' ' hfix (strip_idem s0) hce hs)
            (Or.inr (Or.inl (by simp; omega))) p hp

/-- C3 (amended form): every passage produced by `split_into_passages`
is non-empty and has length at most `maxLength + 1` unless it consists
of a single (stripped) sentence of the input. The `+ 1` is forced by
the code: the flush check `len(current) + len(sentence) > max_length`
does not count the joining space the append then inserts. -/
theorem split_into_passages_bound (text : Str) (maxLength : Nat) :
    ∀ p ∈ split_into_passages text maxLength,
      p ≠ [] ∧ (p.length ≤ maxLength + 1 ∨ p ∈ (splitSentences text).map strip) := by
  exact splitLoop_spec maxLength ((splitSentences text).map strip)
    (splitSentences text) []
    (fun s h => List.mem_map_of_mem strip h)
    rfl
    (Or.inl rfl)

lemma filterMap_ite {α β : Type} (q : α → Prop) [DecidablePred q] (g : α → β)
    (l : List α) :
    (l.filterMap fun a => if q a then some (g a) else none)
      = (l.filter fun a => decide (q a)).map g := by
  induction l with
  | nil => rfl
  | cons a t ih =>
    by_cases h : q a
    · simp [List.filterMap_cons, List.filter_cons, h, ih]
    · simp [List.filterMap_cons, List.filter_cons, h, ih]

/-- The selection tail keeps at most `top_k` entries (for `top_k ≥ 1`;
Python's slice `l[-0:]` is the whole list), orders them by
non-increasing similarity, and drops everything at or below the 0.2
threshold. -/
lemma select_top_spec (sims : List ℚ) (md : List (Str × Str)) (top_k : Nat)
    (hk : 0 < top_k) :
    (select_top sims md top_k).length ≤ top_k ∧
    List.Pairwise (fun a b => b.similarity ≤ a.similarity)
      (select_top sims md top_k) ∧
    ∀ x ∈ select_top sims md top_k, mkRat 1 5 < x.similarity := by
  have hrw : select_top sims md top_k
      = (((lastSlice (argsortAsc sims) top_k).reverse).filter
          fun i => decide (mkRat 1 5 < simAt sims i)).map
        fun i => (⟨(md.getD i ([], [])).1, (md.getD i ([], [])).2, simAt sims i⟩ : SearchResult) :=
    filterMap_ite _ _ _
  have hslice : lastSlice (argsortAsc sims) top_k
      = (argsortAsc sims).drop ((argsortAsc sims).length - top_k) := by
    rw [lastSlice, if_neg (by omega)]
  refine ⟨?_, ?_, ?_⟩
  · rw [hrw]
    have h1 : (((lastSlice (argsortAsc sims) top_k).reverse).filter
        fun i => decide (mkRat 1 5 < simAt sims i)).length
        ≤ (lastSlice (argsortAsc sims) top_k).reverse.length :=
      List.length_filter_le _ _
    have h2 : (lastSlice (argsortAsc sims) top_k).length ≤ top_k := by
      rw [hslice, List.length_drop]
      omega
    simp only [List.length_map, List.length_reverse] at *
    omega
  · rw [hrw]
    have hsorted : List.Pairwise (fun i j => simAt sims i ≤ simAt sims j)
        (argsortAsc sims) := by
      have : IsTotal Nat fun i j => simAt sims i ≤ simAt sims j :=
        ⟨fun a b => le_total _ _⟩
      have : IsTrans Nat fun i j => simAt sims i ≤ simAt sims j :=
        ⟨fun a b c hab hbc => le_trans hab hbc⟩
      exact List.sorted_insertionSort _ _
    have hdropped : List.Pairwise (fun i j => simAt sims i ≤ simAt sims j)
        (lastSlice (argsortAsc sims) top_k) := by
      rw [hslice]
      exact List.Pairwise.sublist (List.drop_sublist _ _) hsorted
    have hrev : List.Pairwise (fun i j => simAt sims j ≤ simAt sims i)
        ((lastSlice (argsortAsc sims) top_k).reverse) := by
      rw [List.pairwise_reverse]
      exact hdropped
    have hfil : List.Pairwise (fun i j => simAt sims j ≤ simAt sims i)
        (((lastSlice (argsortAsc sims) top_k).reverse).filter
          fun i => decide (mkRat 1 5 < simAt sims i)) :=
      List.Pairwise.filter _ hrev
    rw [List.pairwise_map]
    exact hfil
  · intro x hx
    rw [hrw] at hx
    obtain ⟨i, hi, rfl⟩ := List.mem_map.mp hx
    have := List.of_mem_filter hi
    simpa using this

lemma build_passage_index_spec (env : Env) (texts : List (Str × Str)) :
    ((build_passage_index env texts).1 = none →
      (build_passage_index env texts).2 = []) ∧
    (∀ vs, (build_passage_index env texts).1 = some vs →
      vs = (build_passage_index env texts).2.map fun m => env.encode m.2) ∧
    ∀ m ∈ (build_passage_index env texts).2, 20 < m.2.length := by
  by_cases ha : env.semanticAvail = false
  · simp [build_passage_index, ha]
  · by_cases hmd : (texts.flatMap fun ft =>
        if ft.2 = [] then []
        else ((split_into_passages ft.2 500).filter fun p => 20 < p.length).map
          fun p => (ft.1, p)) = []
    · simp [build_passage_index, ha, hmd]
    · have hb : build_passage_index env texts
          = (some ((texts.flatMap fun ft =>
              if ft.2 = [] then []
              else ((split_into_passages ft.2 500).filter fun p => 20 < p.length).map
                fun p => (ft.1, p)).map fun m => env.encode m.2),
            texts.flatMap fun ft =>
              if ft.2 = [] then []
              else ((split_into_passages ft.2 500).filter fun p => 20 < p.length).map
                fun p => (ft.1, p)) := by
        rw [build_passage_index, if_neg ha]
        dsimp only
        rw [if_neg hmd]
      rw [hb]
      refine ⟨by simp, by simp, ?_⟩
      intro m hm
      simp only [List.mem_flatMap] at hm
      obtain ⟨ft, _, hmem⟩ := hm
      by_cases hft : ft.2 = []
      · rw [if_pos hft] at hmem
        simp at hmem
      · rw [if_neg hft] at hmem
        obtain ⟨p, hp, rfl⟩ := List.mem_map.mp hmem
        exact of_decide_eq_true (List.mem_filter.mp hp).2

lemma rebuild_invariant (env : Env) (target : Str) :
    IndexInvariant env (rebuild env target).2 := by
  by_cases he : env.pathExists target = false
  · have h := build_passage_index_spec env []
    rw [rebuild, if_pos he]
    exact h
  · have h := build_passage_index_spec env
      (((env.listdir target).filter isPdfName).map
        fun f => (f, extract_text_from_pdf env (pathJoin target f)))
    rw [rebuild, if_neg he]
    exact h

lemma load_all_pdfs_cases (env : Env) (force : Bool) (folder : Option Str)
    (st : ServerState) :
    load_all_pdfs env force folder st = (st.pdf_cache, st) ∨
    ∃ t, load_all_pdfs env force folder st = rebuild env t := by
  rw [load_all_pdfs.eq_def]
  dsimp only
  split
  · exact Or.inl rfl
  · exact Or.inr ⟨_, rfl⟩

/-- C5: after every call to `load_all_pdfs` (initial load, reload,
folder switch, provider-unavailable and empty-corpus cases included),
the stored vectors are exactly the encodings of the metadata passages
in order — in particular the counts agree — and every indexed passage
is longer than 20 characters. The hypothesis is the same invariant on
the incoming state, which the cache-hit branch preserves unchanged;
every rebuilding branch establishes it from scratch. -/
theorem index_parity_preserved (env : Env) (force : Bool)
    (folder : Option Str) (st : ServerState) (h : IndexInvariant env st) :
    IndexInvariant env (load_all_pdfs env force folder st).2 ∧
    ∀ vs, (load_all_pdfs env force folder st).2.passage_embeddings = some vs →
      vs.length = (load_all_pdfs env force folder st).2.passage_metadata.length := by
  have main : IndexInvariant env (load_all_pdfs env force folder st).2 := by
    rcases load_all_pdfs_cases env force folder st with hc | ⟨t, hc⟩
    · rw [hc]
      exact h
    · rw [hc]
      exact rebuild_invariant env t
  refine ⟨main, ?_⟩
  intro vs hvs
  rw [main.2.1 vs hvs]
  exact List.length_map _ _

/-- C5 witness: a concrete initial load satisfying the hypothesis. -/
theorem index_parity_preserved_witness :
    IndexInvariant envC5 (load_all_pdfs envC5 false none stC5).2 ∧
    ∀ vs, (load_all_pdfs envC5 false none stC5).2.passage_embeddings = some vs →
      vs.length = (load_all_pdfs envC5 false none stC5).2.passage_metadata.length :=
  index_parity_preserved envC5 false none stC5
    (by
      refine ⟨fun _ => rfl, fun vs hvs => ?_, fun m hm => ?_⟩
      · exact absurd hvs (by simp [stC5])
      · exact absurd hm (by simp [stC5]))

/-- C9: `/reload` always performs the full rebuild from the default
`PDF_DIRECTORY`, regardless of the currently cached folder (the result
does not depend on the state at all), and afterwards the cached folder
path is the default directory. -/
theorem reload_uses_default_directory (env : Env) (st : ServerState) :
    load_all_pdfs env true none st = rebuild env PDF_DIRECTORY ∧
    (reload_pdfs env st).2.pdf_folder_path = some PDF_DIRECTORY := by
  have h1 : load_all_pdfs env true none st = rebuild env PDF_DIRECTORY := by
    rw [load_all_pdfs.eq_def]
    dsimp only
    rw [if_neg (by simp)]
  refine ⟨h1, ?_⟩
  show (load_all_pdfs env true none st).2.pdf_folder_path = some PDF_DIRECTORY
  rw [h1, rebuild]
  by_cases he : env.pathExists PDF_DIRECTORY = false
  · rw [if_pos he]
  · rw [if_neg he]

/-- C10: `GET /pdfs` ignores the server state entirely and always
lists the `.pdf` files of the default `PDF_DIRECTORY` (empty when the
directory does not exist). -/
theorem list_pdfs_ignores_state (env : Env) (st st' : ServerState) :
    list_pdfs env st = list_pdfs env st' ∧
    list_pdfs env st = (if env.pathExists PDF_DIRECTORY = true
      then (env.listdir PDF_DIRECTORY).filter isPdfName else []) := by
  refine ⟨rfl, ?_⟩
  rw [list_pdfs]
  by_cases he : env.pathExists PDF_DIRECTORY = false
  · rw [if_pos he, if_neg (by simp [he])]
  · rw [if_neg he, if_pos (by simpa using he)]

/-- C6 counterexample: with the cache loaded from a custom folder, a
request that names no folder (so the default directory is the target
the claim speaks of) still returns the cached snapshot unchanged, even
though the cached folder differs from the default — refuting the
claimed "exactly when ... the requested folder (or the default when
none is given) equals the currently cached folder path". -/
theorem cache_hit_folder_mismatch_cex :
    stC6.pdf_cache_loaded = true ∧
    stC6.pdf_folder_path ≠ some PDF_DIRECTORY ∧
    load_all_pdfs envC6 false none stC6 = (stC6.pdf_cache, stC6) := by
  refine ⟨rfl, by decide, rfl⟩

/-- C6 (amended form): `load_all_pdfs` returns the cached snapshot
unchanged in exactly the cache-hit configuration — cache loaded, no
forced reload, and the request names no folder (or a falsy/identical
one), regardless of whether the cached folder is the default. Every
other configuration executes the full rebuild: a request naming a
truthy folder different from the cached one rebuilds from that folder
(whatever the other inputs), a forced reload always rebuilds from the
requested-or-default folder, and so does any request while the cache
is not loaded. The four conjuncts cover every input, so the cache hit
happens exactly under the stated condition. -/
theorem load_all_pdfs_cache_behavior (env : Env) (force : Bool)
    (folder : Option Str) (st : ServerState) :
    (st.pdf_cache_loaded = true → force = false →
      (folder = none ∨ folder = some [] ∨
        (∃ f, folder = some f ∧ st.pdf_folder_path = some f)) →
      load_all_pdfs env force folder st = (st.pdf_cache, st)) ∧
    (∀ f, folder = some f → f ≠ [] → st.pdf_folder_path ≠ some f →
      load_all_pdfs env force folder st = rebuild env f) ∧
    (force = true →
      load_all_pdfs env force folder st = rebuild env (requestTarget folder)) ∧
    (st.pdf_cache_loaded = false →
      load_all_pdfs env force folder st = rebuild env (requestTarget folder)) := by
  refine ⟨?_, ?_, ?_, ?_⟩
  · intro hl hf hcase
    rcases hcase with rfl | rfl | ⟨f, rfl, hp⟩
    · simp [load_all_pdfs, hl, hf]
    · simp [load_all_pdfs, hl, hf]
    · simp [load_all_pdfs, hl, hf, hp]
  · intro f hfol hne hp
    subst hfol
    simp [load_all_pdfs, hne, hp]
  · intro hf
    subst hf
    cases folder with
    | none => simp [load_all_pdfs, requestTarget]
    | some f =>
      by_cases hfe : f = []
      · subst hfe
        simp [load_all_pdfs, requestTarget]
      · by_cases hp : st.pdf_folder_path = some f
        · simp [load_all_pdfs, requestTarget, hfe, hp]
        · simp [load_all_pdfs, requestTarget, hfe, hp]
  · intro hl
    cases folder with
    | none => simp [load_all_pdfs, requestTarget, hl]
    | some f =>
      by_cases hfe : f = []
      · subst hfe
        simp [load_all_pdfs, requestTarget, hl]
      · by_cases hp : st.pdf_folder_path = some f
        · simp [load_all_pdfs, requestTarget, hl, hfe, hp]
        · simp [load_all_pdfs, requestTarget, hl, hfe, hp]

/-- C6 witness: concrete instances of the amended directions — a
folderless request hits the cache, a request naming a different folder
rebuilds from it, and a forced folderless reload rebuilds from the
default directory. -/
theorem load_all_pdfs_cache_behavior_witness :
    load_all_pdfs envC6 false none stC6 = (stC6.pdf_cache, stC6) ∧
    load_all_pdfs envC6 false (some "/elsewhere".toList) stC6
      = rebuild envC6 "/elsewhere".toList ∧
    load_all_pdfs envC6 true none stC6 = rebuild envC6 (requestTarget none) := by
  refine ⟨?_, ?_, ?_⟩
  · exact (load_all_pdfs_cache_behavior envC6 false none stC6).1 rfl rfl
      (Or.inl rfl)
  · exact (load_all_pdfs_cache_behavior envC6 false
      (some "/elsewhere".toList) stC6).2.1 "/elsewhere".toList rfl
      (by decide) (by decide)
  · exact (load_all_pdfs_cache_behavior envC6 true none stC6).2.2.1 rfl

/-- C7: every `/load_pdfs` request whose `folder_path` is missing,
empty after stripping, nonexistent, or not a directory is rejected
with HTTP 400 and `success = false`, and the server state (document
cache, cached folder path, and vector index) is returned unchanged. -/
theorem load_pdfs_invalid_rejected (env : Env) (body : Option Str)
    (st : ServerState) (h : invalidFolderReq env body) :
    (load_pdfs_from_folder env body st).1.status = 400 ∧
    (load_pdfs_from_folder env body st).1.success = false ∧
    (load_pdfs_from_folder env body st).2 = st := by
  cases body with
  | none => exact ⟨rfl, rfl, rfl⟩
  | some fp0 =>
    rcases h with h1 | h1 | h1
    · simp [load_pdfs_from_folder, h1]
    · by_cases h2 : strip fp0 = []
      · simp [load_pdfs_from_folder, h2]
      · simp [load_pdfs_from_folder, h2, h1]
    · by_cases h2 : strip fp0 = []
      · simp [load_pdfs_from_folder, h2]
      · by_cases h3 : env.pathExists (strip fp0) = false
        · simp [load_pdfs_from_folder, h2, h3]
        · simp [load_pdfs_from_folder, h2, h3, h1]

/-- C7 witness: a request naming a nonexistent folder is rejected and
the loaded cache is untouched. -/
theorem load_pdfs_invalid_rejected_witness :
    (load_pdfs_from_folder envC7 (some "/nope".toList) stC7).1.status = 400 ∧
    (load_pdfs_from_folder envC7 (some "/nope".toList) stC7).1.success = false ∧
    (load_pdfs_from_folder envC7 (some "/nope".toList) stC7).2 = stC7 :=
  load_pdfs_invalid_rejected envC7 (some "/nope".toList) stC7
    (Or.inr (Or.inl (by decide)))

/-- C3 counterexample: at `maxLength = 6` the input `"ab. cd."` yields
the single passage `"ab. cd."` of length 7 > 6, and that passage is
not a single sentence of the input (the sentences are `"ab."` and
`"cd."`) — refuting "each passage has length ≤ maxLength, except a
passage consisting of a single sentence". -/
theorem split_passages_maxlength_cex :
    ∃ p ∈ split_into_passages ("ab. cd.".toList) 6,
      6 < p.length ∧ p ∉ (splitSentences ("ab. cd.".toList)).map strip := by
  decide

/-- C3 witness: a concrete passage of the bounded kind. -/
theorem split_into_passages_bound_witness :
    ("Hi there. Bye.".toList ≠ [] ∧
      ("Hi there. Bye.".toList.length ≤ 30 + 1 ∨
        "Hi there. Bye.".toList ∈ (splitSentences ("Hi there. Bye.".toList)).map strip)) :=
  split_into_passages_bound ("Hi there. Bye.".toList) 30
    ("Hi there. Bye.".toList) (by decide)

/-- C8 counterexample: a PDF whose reader raises after one page was
already extracted keeps the partial text `"Page one content\n"`, which
is not the empty string the claim requires. -/
theorem extract_partial_text_cex :
    envC8.readPdf ("pdfs/bad.pdf".toList)
      = PdfRead.failAfter ["Page one content".toList] ∧
    extract_text_from_pdf envC8 ("pdfs/bad.pdf".toList)
      = "Page one content\n".toList ∧
    extract_text_from_pdf envC8 ("pdfs/bad.pdf".toList) ≠ [] := by
  decide

/-- C8 (amended form): a per-file extraction failure never aborts the
reload — the rebuilt cache has exactly one entry per listed `.pdf`
file, each holding its extraction result — and a file whose read fails
contributes the text of the pages read before the failure (the empty
string when the failure precedes any page). -/
theorem extraction_failure_nonfatal (env : Env) (target : Str)
    (hex : env.pathExists target = true) :
    ((rebuild env target).1.map Prod.fst = (env.listdir target).filter isPdfName) ∧
    (∀ f, f ∈ (env.listdir target).filter isPdfName →
      (f, extract_text_from_pdf env (pathJoin target f)) ∈ (rebuild env target).1) ∧
    ∀ path pages, env.readPdf path = PdfRead.failAfter pages →
      env.pdfSupport = true →
      extract_text_from_pdf env path = pagesText pages := by
  have hr : (rebuild env target).1 = ((env.listdir target).filter isPdfName).map
      fun f => (f, extract_text_from_pdf env (pathJoin target f)) := by
    rw [rebuild, if_neg (by simp [hex])]
  refine ⟨?_, ?_, ?_⟩
  · have hid : (Prod.fst ∘ fun f => (f, extract_text_from_pdf env (pathJoin target f)))
        = id := rfl
    rw [hr, List.map_map, hid, List.map_id]
  · intro f hf
    rw [hr]
    exact List.mem_map_of_mem _ hf
  · intro path pages hp hs
    simp [extract_text_from_pdf, hs, hp]

/-- C8 witness: the failing-file batch at a concrete folder. -/
theorem extraction_failure_nonfatal_witness :
    ((rebuild envC8 ("pdfs".toList)).1.map Prod.fst
      = (envC8.listdir ("pdfs".toList)).filter isPdfName) ∧
    (∀ f, f ∈ (envC8.listdir ("pdfs".toList)).filter isPdfName →
      (f, extract_text_from_pdf envC8 (pathJoin ("pdfs".toList) f))
        ∈ (rebuild envC8 ("pdfs".toList)).1) ∧
    ∀ path pages, envC8.readPdf path = PdfRead.failAfter pages →
      envC8.pdfSupport = true →
      extract_text_from_pdf envC8 path = pagesText pages :=
  extraction_failure_nonfatal envC8 ("pdfs".toList) (by decide)

/-- C4 (amended form): for every index state and question, the
semantic query returns at most `topK` results (for `topK ≥ 1`; the
server always queries with `topK = 3`), ordered by non-increasing
similarity — ties between equal similarities are possible, so the
order is descending but not strictly — and every returned similarity
is strictly greater than 0.2, so fewer than `topK` results (including
zero) is valid. -/
theorem semantic_search_ranked (env : Env) (st : ServerState) (q : Str)
    (top_k : Nat) (hk : 0 < top_k) :
    (semantic_search env st q top_k).length ≤ top_k ∧
    List.Pairwise (fun a b => b.similarity ≤ a.similarity)
      (semantic_search env st q top_k) ∧
    ∀ x ∈ semantic_search env st q top_k, mkRat 1 5 < x.similarity := by
  rw [semantic_search.eq_def]
  by_cases ha : env.semanticAvail = false
  · rw [if_pos ha]
    exact ⟨by simp, List.Pairwise.nil, by simp⟩
  · rw [if_neg ha]
    cases hemb : st.passage_embeddings with
    | none =>
      exact ⟨by simp, List.Pairwise.nil, by simp⟩
    | some vs =>
      dsimp only
      by_cases hmd : st.passage_metadata.length = 0
      · rw [if_pos hmd]
        exact ⟨by simp, List.Pairwise.nil, by simp⟩
      · rw [if_neg hmd]
        exact select_top_spec _ _ _ hk

/-- C4 counterexample: two indexed passages both at cosine similarity
1/2 are returned in an order that is not strictly descending — the
two returned similarities are equal — refuting "ordered strictly
descending by similarity". -/
theorem semantic_search_ties_cex :
    ((semantic_search envC4 stC4 ("q".toList) 3).map fun r => r.similarity)
      = [mkRat 1 2, mkRat 1 2] ∧
    ¬ List.Pairwise (fun a b : ℚ => b < a)
      ((semantic_search envC4 stC4 ("q".toList) 3).map fun r => r.similarity) := by
  constructor
  · decide
  · decide

/-- C4 witness: the ranking properties at the tie fixture. -/
theorem semantic_search_ranked_witness :
    (semantic_search envC4 stC4 ("q".toList) 3).length ≤ 3 ∧
    List.Pairwise (fun a b => b.similarity ≤ a.similarity)
      (semantic_search envC4 stC4 ("q".toList) 3) ∧
    ∀ x ∈ semantic_search envC4 stC4 ("q".toList) 3, mkRat 1 5 < x.similarity :=
  semantic_search_ranked envC4 stC4 ("q".toList) 3 (by decide)

/-- C1 counterexample: with the embedding provider unavailable but a
non-empty document set loaded, `/ask` answers with the generic
"no matching content" message and an empty `sources` list — there is
no keyword fallback anywhere in the handler — refuting "the /ask
response carries keyword-scored results ... rather than an empty
result set". -/
theorem ask_unavailable_empty_sources_cex :
    envC1.semanticAvail = false ∧
    (load_all_pdfs envC1 false none stC1).1 ≠ [] ∧
    (ask_question envC1 (some ("What is the refund policy?".toList)) stC1).1.sources
      = [] ∧
    (ask_question envC1 (some ("What is the refund policy?".toList)) stC1).1.success
      = true ∧
    (ask_question envC1 (some ("What is the refund policy?".toList)) stC1).1.answer
      = msgNoMatch := by
  refine ⟨rfl, by decide, ?_, ?_, ?_⟩ <;> decide

/-- C1 (amended form): whenever the provider is unavailable **or the
semantic index is empty** (embeddings `None`, or no metadata — e.g.
every passage was ≤ 20 characters) while documents are loaded,
`semantic_search` returns no results and `/ask` replies with
`success = true`, the "no matching content" message and an empty
`sources` list: the engine has no keyword fallback. -/
theorem ask_no_keyword_fallback (env : Env) (st : ServerState) (q0 : Str)
    (hfall : env.semanticAvail = false ∨
      (load_all_pdfs env false none st).2.passage_embeddings = none ∨
      (load_all_pdfs env false none st).2.passage_metadata.length = 0)
    (hq : strip q0 ≠ [])
    (hdocs : (load_all_pdfs env false none st).1 ≠ []) :
    semantic_search env (load_all_pdfs env false none st).2 (strip q0) 3 = [] ∧
    (ask_question env (some q0) st).1.success = true ∧
    (ask_question env (some q0) st).1.sources = [] ∧
    (ask_question env (some q0) st).1.answer = msgNoMatch := by
  have hsem : semantic_search env (load_all_pdfs env false none st).2 (strip q0) 3
      = [] := by
    rw [semantic_search.eq_def]
    by_cases ha : env.semanticAvail = false
    · rw [if_pos ha]
    · rw [if_neg ha]
      rcases hfall with h | h | h
      · exact absurd h ha
      · rw [h]
      · cases hemb : (load_all_pdfs env false none st).2.passage_embeddings with
        | none => rfl
        | some vs =>
          dsimp only
          rw [if_pos h]
  refine ⟨hsem, ?_⟩
  simp [ask_question, hq, hdocs, hsem]

/-- C1 witness: the fallback-free response at the concrete fixture. -/
theorem ask_no_keyword_fallback_witness :
    semantic_search envC1 (load_all_pdfs envC1 false none stC1).2
      (strip ("what".toList)) 3 = [] ∧
    (ask_question envC1 (some ("what".toList)) stC1).1.success = true ∧
    (ask_question envC1 (some ("what".toList)) stC1).1.sources = [] ∧
    (ask_question envC1 (some ("what".toList)) stC1).1.answer = msgNoMatch :=
  ask_no_keyword_fallback envC1 stC1 ("what".toList) (Or.inl rfl) (by decide)
    (by decide)

/-- C2 counterexample: with an empty document set, `/ask` returns
`success = false` (HTTP 200), refuting the claimed `success = true`. -/
theorem ask_no_corpus_success_false_cex :
    strip ("hello".toList) ≠ [] ∧
    (load_all_pdfs envC2 false none stC2).1 = [] ∧
    (ask_question envC2 (some ("hello".toList)) stC2).1.success = false := by
  refine ⟨by decide, by decide, by decide⟩

/-- C2 (amended form): a non-empty question against an empty document
set gets the informative no-corpus response — HTTP 200 with the
message instructing the caller to load a folder and empty sources, so
"nothing indexed" stays distinguishable from "nothing relevant found"
— but with `success = false`, not `success = true`. -/
theorem ask_no_corpus_informative (env : Env) (st : ServerState) (q0 : Str)
    (hq : strip q0 ≠ [])
    (hempty : (load_all_pdfs env false none st).1 = []) :
    (ask_question env (some q0) st).1.success = false ∧
    (ask_question env (some q0) st).1.status = 200 ∧
    (ask_question env (some q0) st).1.answer = msgNoCorpus ∧
    (ask_question env (some q0) st).1.sources = [] := by
  simp [ask_question, hq, hempty]

/-- C2 witness: the no-corpus response at the concrete fixture. -/
theorem ask_no_corpus_informative_witness :
    (ask_question envC2 (some ("hello".toList)) stC2).1.success = false ∧
    (ask_question envC2 (some ("hello".toList)) stC2).1.status = 200 ∧
    (ask_question envC2 (some ("hello".toList)) stC2).1.answer = msgNoCorpus ∧
    (ask_question envC2 (some ("hello".toList)) stC2).1.sources = [] :=
  ask_no_corpus_informative envC2 stC2 ("hello".toList) (by decide) (by decide)
